/-
Verification of the distributed DMPO learning loop (talmolab/vnl-ray).

Shallow embedding of:
  * `DistributionalMPOLearner._step` / `step`  (src/flybody/agents/learning_dmpo.py)
  * `ReplayServer.__init__`                    (src/vnl_ray/agents/ray_distributed_dmpo.py)
  * `EnvironmentLoop.run_episode`, `_eval_agg_stat`, `load_snapshot_and_render`
                                               (src/vnl_ray/agents/ray_distributed_dmpo.py)

Network parameters are modelled as lists of integers (a parameter vector);
gradient-optimizer applications are modelled as the new values they write into
the online trainable groups, which is exactly the interface the source uses
(`optimizer.apply(grads, variables)` mutates only the variables passed to it).
Real-valued quantities that the claims reason about algebraically
(softmax / log-sum-exp) are modelled over ℝ; config arithmetic over ℚ.
-/
import Mathlib

namespace VnlRay

/-! ## Learner state and target-network synchronization
    (`DistributionalMPOLearner._step`, learning_dmpo.py lines 174-305) -/

/-- The four groups of network parameters owned by the learner: online
policy, online observation, online critic, and the MPO dual variables
(stored in the policy-loss module). -/
structure LearnerParams where
  policy : List ℤ
  obs : List ℤ
  critic : List ℤ
  duals : List ℤ
  deriving Repr, DecidableEq

/-- Full learner parameter state: online groups, the three target networks,
and the step counter `_num_steps`. -/
structure LearnerState where
  online : LearnerParams
  tgtPolicy : List ℤ
  tgtObs : List ℤ
  tgtCritic : List ℤ
  numSteps : ℕ
  deriving Repr, DecidableEq

/-- Lines 176-197 of learning_dmpo.py: if `num_steps % target_policy_update_period
== 0`, assign the online policy variables onto the target policy variables
(`online_policy_variables = self._policy_network.variables` — the observation
network is *not* part of this group); if `num_steps % target_critic_update_period
== 0`, assign the online observation and critic variables onto the target
observation and critic variables (`online_critic_variables` is the tuple of
observation and critic variables).  Finally `num_steps` is incremented. -/
def targetSync (policyPeriod criticPeriod : ℕ) (s : LearnerState) : LearnerState :=
  let s1 := if s.numSteps % policyPeriod = 0 then
      { s with tgtPolicy := s.online.policy } else s
  let s2 := if s1.numSteps % criticPeriod = 0 then
      { s1 with tgtObs := s1.online.obs, tgtCritic := s1.online.critic } else s1
  { s2 with numSteps := s2.numSteps + 1 }

/-- Lines 278-305 of learning_dmpo.py: the three optimizers are applied to the
three disjoint online trainable groups only — `critic_optimizer.apply` to
(observation ++ critic) variables, `policy_optimizer.apply` to policy
variables, `dual_optimizer.apply` to the dual variables.  An optimizer
application is modelled by the new values (`upd`) it writes into the group it
was handed; no other variable is passed to any optimizer. -/
def gradientApply (upd : LearnerParams) (s : LearnerState) : LearnerState :=
  { s with online := upd }

/-- One full learner gradient step (`_step`): target sync (with counter
increment), then loss/gradient computation and the three optimizer
applications. -/
def learnerStep (policyPeriod criticPeriod : ℕ) (upd : LearnerParams)
    (s : LearnerState) : LearnerState :=
  gradientApply upd (targetSync policyPeriod criticPeriod s)

/-! ## Gradient clipping (learning_dmpo.py lines 297-305)

Each gradient group is modelled as one scalar parameter (ℚ); on a singleton
tensor list `tf.clip_by_global_norm(g, c)` returns `g * c / max(|g|, c)`,
i.e. `g` unchanged when `|g| ≤ c` and `±c` otherwise. -/

/-- `tf.clip_by_global_norm` specialised to a single scalar gradient:
unchanged when its norm `|g|` is at most the ceiling `c`, otherwise scaled
down to norm exactly `c`. -/
def clipByGlobalNorm (c g : ℚ) : ℚ :=
  if |g| ≤ c then g else if 0 ≤ g then c else -c

/-- Lines 297-305 of learning_dmpo.py: when `self._clipping` is set, the
policy gradients and the critic gradients are clipped to global norm 40.0;
the dual gradients are passed to `dual_optimizer.apply` as computed by the
tape, with no clipping applied in either branch.  Returns the gradient
triple `(critic, policy, dual)` as handed to the three optimizers. -/
def gradientsToApply (clipping : Bool) (criticG policyG dualG : ℚ) : ℚ × ℚ × ℚ :=
  if clipping then
    (clipByGlobalNorm 40 criticG, clipByGlobalNorm 40 policyG, dualG)
  else
    (criticG, policyG, dualG)

/-! ## Snapshot versioning (`DistributionalMPOLearner.step`, lines 333-348)

The snapshotter holds a mapping path ↦ saved object whose keys end in
`policy-<version>`; `save()` writes every object to its current path and
returns whether the (time-gated) write happened.  After a successful write,
the `step` loop renames every key's trailing version number to version+1.
We track the trailing version numbers of the in-memory snapshot paths and
the log of version numbers actually written to disk, in order. -/

structure SnapshotterState where
  /-- trailing version numbers of the snapshot paths currently in
  `self._snapshotter._snapshots` (one per saved object; initially `policy-0`). -/
  snapshots : List ℕ
  /-- versions written to disk so far, in write order. -/
  disk : List ℕ
  deriving Repr, DecidableEq

/-- Lines 333-348 of learning_dmpo.py: if `self._snapshotter.save()` performed
a write (time gate open), the objects are written at their current paths and
then every path's trailing counter is replaced by counter+1; otherwise
nothing changes. -/
def snapshotSave (didSave : Bool) (s : SnapshotterState) : SnapshotterState :=
  if didSave then
    { snapshots := s.snapshots.map (· + 1), disk := s.disk ++ s.snapshots }
  else s

/-- `n` consecutive successful snapshot saves. -/
def runSaves : ℕ → SnapshotterState → SnapshotterState
  | 0, s => s
  | n + 1, s => runSaves n (snapshotSave true s)

/-- Initial snapshotter state: the single object is registered under key
`policy-0` (learning_dmpo.py line 135) and nothing is on disk. -/
def snapInit : SnapshotterState := { snapshots := [0], disk := [] }

/-! ## Replay table construction (`ReplayServer.__init__`,
    ray_distributed_dmpo.py lines 88-113) -/

/-- The reverb rate limiters used by `ReplayServer.__init__`. -/
inductive RateLimiter where
  | minSize (minSizeToSample : ℕ)
  | sampleToInsertRatio (minSizeToSample : ℕ) (samplesPerInsert : ℚ)
      (errorBuffer : ℚ)
  deriving Repr, DecidableEq

/-- The reverb selectors used for the replay table. -/
inductive Selector where
  | uniform
  | fifo
  deriving Repr, DecidableEq

/-- The configuration fields of `DMPOConfig` that `ReplayServer.__init__`
reads (`samples_per_insert = None` is `Option.none`). -/
structure ReplayConfig where
  replayTableName : String
  minReplaySize : ℕ
  maxReplaySize : ℕ
  samplesPerInsert : Option ℚ
  deriving Repr, DecidableEq

/-- The `reverb.Table` arguments assembled by `ReplayServer.__init__`. -/
structure ReplayTable where
  name : String
  sampler : Selector
  remover : Selector
  maxSize : ℕ
  rateLimiter : RateLimiter
  deriving Repr, DecidableEq

/-- Lines 92-104 of ray_distributed_dmpo.py: with `samples_per_insert is None`
the limiter is `reverb.rate_limiters.MinSize(min_replay_size)`; otherwise
`samples_per_insert_tolerance = 0.1 * samples_per_insert`,
`error_buffer = min_replay_size * samples_per_insert_tolerance`, and the
limiter is `SampleToInsertRatio(min_size_to_sample=min_replay_size,
samples_per_insert, error_buffer)`. -/
def makeLimiter (cfg : ReplayConfig) : RateLimiter :=
  match cfg.samplesPerInsert with
  | none => .minSize cfg.minReplaySize
  | some spi =>
      .sampleToInsertRatio cfg.minReplaySize spi
        ((cfg.minReplaySize : ℚ) * (1/10 * spi))

/-- Lines 106-113 of ray_distributed_dmpo.py: the replay table built by
`ReplayServer.__init__` — uniform sampler, FIFO remover, capacity
`max_replay_size`, and the limiter above. -/
def makeReplayTable (cfg : ReplayConfig) : ReplayTable :=
  { name := cfg.replayTableName
    sampler := .uniform
    remover := .fifo
    maxSize := cfg.maxReplaySize
    rateLimiter := makeLimiter cfg }

/-! ## Evaluator episode loop (`EnvironmentLoop`,
    ray_distributed_dmpo.py lines 391-478) -/

/-- The per-episode scalars produced by `acme.EnvironmentLoop.run_episode`
(the `logging_data` dict): episode length, episode return, steps/second. -/
structure EpData where
  episodeLength : ℚ
  episodeReturn : ℚ
  stepsPerSecond : ℚ
  deriving Repr, DecidableEq

/-- The zeroed fallback result returned on an in-episode exception
(ray_distributed_dmpo.py line 407). -/
def zeroEp : EpData := { episodeLength := 0, episodeReturn := 0, stepsPerSecond := 0 }

/-- The aggregate-statistics keys `_eval_agg_stat` adds to the report when it
reports anything (ray_distributed_dmpo.py lines 427-437). -/
structure AggStats where
  avgEpisodeLength : ℚ
  avgEpisodeReturn : ℚ
  avgStepsPerSecond : ℚ
  varEpisodeLength : ℚ
  varEpisodeReturn : ℚ
  maxEpisodeLength : ℚ
  maxEpisodeReturn : ℚ
  minEpisodeLength : ℚ
  minEpisodeReturn : ℚ
  deriving Repr, DecidableEq

/-- `np.mean` of a list (0 on the empty list, never reached with a nonempty
window). -/
def listMean (xs : List ℚ) : ℚ := xs.sum / xs.length

/-- `np.var` of a list: population variance, mean of squared deviations. -/
def listVar (xs : List ℚ) : ℚ := listMean (xs.map fun x => (x - listMean xs) ^ 2)

/-- `np.max` of a list (0 on the empty list, never reached). -/
def listMax : List ℚ → ℚ
  | [] => 0
  | x :: xs => xs.foldl max x

/-- `np.min` of a list (0 on the empty list, never reached). -/
def listMin : List ℚ → ℚ
  | [] => 0
  | x :: xs => xs.foldl min x

/-- `EnvironmentLoop._eval_agg_stat` (lines 417-440): when
`len(self._stats) >= self._config.eval_average_over`, return the dict of
mean/variance/max/min of episode length and return (and mean of
steps-per-second) over the current window; otherwise return the empty dict
(modelled as `none`). -/
def evalAggStat (evalAverageOver : ℕ) (stats : List EpData) : Option AggStats :=
  if evalAverageOver ≤ stats.length then
    some
      { avgEpisodeLength := listMean (stats.map (·.episodeLength))
        avgEpisodeReturn := listMean (stats.map (·.episodeReturn))
        avgStepsPerSecond := listMean (stats.map (·.stepsPerSecond))
        varEpisodeLength := listVar (stats.map (·.episodeLength))
        varEpisodeReturn := listVar (stats.map (·.episodeReturn))
        maxEpisodeLength := listMax (stats.map (·.episodeLength))
        maxEpisodeReturn := listMax (stats.map (·.episodeReturn))
        minEpisodeLength := listMin (stats.map (·.episodeLength))
        minEpisodeReturn := listMin (stats.map (·.episodeReturn)) }
  else none

/-! ## Snapshot polling (`EnvironmentLoop.load_snapshot_and_render`,
    ray_distributed_dmpo.py lines 442-478) -/

/-- The maximal leading run of decimal digits of a character list (the
greedy `\d+` of the pattern). -/
def takeDigits : List Char → List Char
  | [] => []
  | c :: cs => if c.isDigit then c :: takeDigits cs else []

/-- Numeric value of a decimal digit run (`int(match.group(1))`). -/
def digitsToNat (ds : List Char) : ℕ :=
  ds.foldl (fun n c => 10 * n + (c.toNat - 48)) 0

/-- `re.match(r"policy-(\d+)", path.name)` (line 449): succeeds when the name
starts with `policy-` followed by at least one digit, returning the leading
digit run as a number. -/
def matchPolicy (name : String) : Option ℕ :=
  match name.toList with
  | 'p' :: 'o' :: 'l' :: 'i' :: 'c' :: 'y' :: '-' :: rest =>
      match takeDigits rest with
      | [] => none
      | ds => some (digitsToNat ds)
  | _ => none

/-- The evaluator snapshot-polling state: `self._highest_snap_num`
(initialised to `-1`) and `self._latest_snapshot`. -/
structure SnapPollState where
  highest : ℤ
  latest : Option String
  deriving Repr, DecidableEq

/-- One iteration of the directory scan (lines 448-455): on a
`policy-<number>` entry whose number exceeds the running highest, record it
as the new highest/latest and arm rendering. -/
def pollStep (acc : ℤ × Option String × Bool) (name : String) :
    ℤ × Option String × Bool :=
  match matchPolicy name with
  | none => acc
  | some m => if (m : ℤ) > acc.1 then ((m : ℤ), some name, true) else acc

/-- The full directory scan of `load_snapshot_and_render` over the entries of
`self._snapshotter_dir`, starting from the stored highest/latest and with
`render = False`. -/
def pollSnapshots (entries : List String) (highest : ℤ) (latest : Option String) :
    ℤ × Option String × Bool :=
  entries.foldl pollStep (highest, latest, false)

/-- `EnvironmentLoop.load_snapshot_and_render` (lines 442-478), with the
filesystem abstracted to the listing `entries` and `loadOk p` telling whether
`tf.saved_model.load(p)` succeeds or raises `OSError` (snapshot not fully
written yet).  Returns the new polling state and whether a rollout was
rendered.  On a load failure the highest version is decremented by one so the
same snapshot is claimed again on the next poll (lines 465-469). -/
def loadSnapshotAndRender (entries : List String) (loadOk : String → Bool)
    (s : SnapPollState) : SnapPollState × Bool :=
  let r := pollSnapshots entries s.highest s.latest
  let render := r.2.2
  if render then
    match r.2.1 with
    | some p =>
        if loadOk p then ({ highest := r.1, latest := some p }, true)
        else ({ highest := r.1 - 1, latest := some p }, false)
    | none => ({ highest := r.1, latest := none }, false)
  else ({ highest := r.1, latest := r.2.1 }, false)

/-! ## `EnvironmentLoop.run_episode` (lines 401-415) -/

/-- Evaluator-side mutable state touched by `run_episode`: the rolling
statistics window `self._stats` and the snapshot-polling state. -/
structure EvalState where
  stats : List EpData
  snap : SnapPollState
  deriving Repr, DecidableEq

/-- `EnvironmentLoop.run_episode` (lines 401-415).  `inner` is the outcome of
`super().run_episode()` (`Except.error` when the rollout raised).  On an
exception the zeroed result is returned at once, before any evaluator state
is touched.  For an evaluator on a successful episode: append the episode
data to `self._stats`; if `len(self._stats) >= eval_average_over`, pop the
oldest entry; run `load_snapshot_and_render`; merge `_eval_agg_stat` into the
report.  Returns `((episode data, aggregate stats), new state)`. -/
def runEpisode (evalAverageOver : ℕ) (isEvaluator : Bool)
    (inner : Except Unit EpData) (entries : List String)
    (loadOk : String → Bool) (s : EvalState) :
    (EpData × Option AggStats) × EvalState :=
  match inner with
  | .error _ => ((zeroEp, none), s)
  | .ok d =>
      if isEvaluator then
        let stats1 := s.stats ++ [d]
        let stats2 := if evalAverageOver ≤ stats1.length then stats1.drop 1 else stats1
        let snap2 := (loadSnapshotAndRender entries loadOk s.snap).1
        ((d, evalAggStat evalAverageOver stats2), { stats := stats2, snap := snap2 })
      else ((d, none), s)

/-- Run a sequence of episodes through `run_episode` on an evaluator,
collecting the aggregate-statistics part of each report. -/
def runEpisodes (evalAverageOver : ℕ) (eps : List (Except Unit EpData))
    (s : EvalState) : List (Option AggStats) × EvalState :=
  match eps with
  | [] => ([], s)
  | e :: rest =>
      let r := runEpisode evalAverageOver true e [] (fun _ => true) s
      let rs := runEpisodes evalAverageOver rest r.2
      (r.1.2 :: rs.1, rs.2)

/-- Initial evaluator state (`self._stats = []`, `self._highest_snap_num = -1`,
`self._latest_snapshot = None`; ray_distributed_dmpo.py lines 391-397). -/
def evalInit : EvalState := { stats := [], snap := { highest := -1, latest := none } }

/-! ## Bootstrap-target combination rule (learning_dmpo.py lines 242-251)

`sampled_logprobs = tf.math.log_softmax(sampled_logits, axis=-1)` followed by
`averaged_logits = tf.reduce_logsumexp(sampled_logprobs, axis=0)`, with the
resulting logits interpreted through a categorical distribution over the `A`
support atoms.  Idealised over ℝ: `A` atoms, `N` critic samples. -/

/-- Softmax over atoms: the categorical probability induced by a logit
vector. -/
noncomputable def softmax {A : ℕ} (l : Fin A → ℝ) (a : Fin A) : ℝ :=
  Real.exp (l a) / ∑ b, Real.exp (l b)

/-- `tf.math.log_softmax` over the atom axis. -/
noncomputable def logSoftmax {A : ℕ} (l : Fin A → ℝ) (a : Fin A) : ℝ :=
  l a - Real.log (∑ b, Real.exp (l b))

/-- `tf.reduce_logsumexp` over the sample axis (axis 0). -/
noncomputable def logSumExpSamples {N A : ℕ} (L : Fin N → Fin A → ℝ) (a : Fin A) : ℝ :=
  Real.log (∑ k, Real.exp (L k a))

/-- Lines 244-247: the combined logits of the bootstrap target — per-sample
log-softmax over atoms, then log-sum-exp across the `N` samples. -/
noncomputable def averagedLogits {N A : ℕ} (logits : Fin N → Fin A → ℝ) (a : Fin A) : ℝ :=
  logSumExpSamples (fun k => logSoftmax (logits k)) a

/-! ## Concrete instances used by counterexamples and witnesses -/

/-- A learner state at a policy-sync step count (`num_steps = 101`, the
default `target_policy_update_period`), whose target parameters all differ
from the online ones. -/
def syncExampleState : LearnerState :=
  { online := { policy := [5], obs := [7], critic := [9], duals := [3] }
    tgtPolicy := [0], tgtObs := [1], tgtCritic := [2], numSteps := 101 }

/-- The same parameters at a step count divisible by neither default sync
period. -/
def midExampleState : LearnerState := { syncExampleState with numSteps := 1 }

/-- Three successful evaluator episodes with known lengths and returns. -/
def threeEpisodes : List (Except Unit EpData) :=
  [.ok { episodeLength := 10, episodeReturn := 1, stepsPerSecond := 1 },
   .ok { episodeLength := 20, episodeReturn := 2, stepsPerSecond := 1 },
   .ok { episodeLength := 30, episodeReturn := 3, stepsPerSecond := 1 }]

/-- A snapshot directory listing holding one snapshot, `policy-3`. -/
def exampleEntries : List String := ["policy-3"]

/-- A replay configuration with the repository defaults
(`min_replay_size = 10_000`, `max_replay_size = 4_000_000`,
`samples_per_insert = 32.0`). -/
def exampleReplayCfg : ReplayConfig :=
  { replayTableName := "priority_table", minReplaySize := 10000
    maxReplaySize := 4000000, samplesPerInsert := some 32 }

/-! # Theorems -/

/-! ### C2 — snapshot version monotonicity -/

/-- Helper: `n` successful saves from a single snapshot at version `v` write
versions `v, v+1, …, v+n-1` to disk (in order) and leave the in-memory path
at version `v + n`. -/
theorem runSaves_single (n : ℕ) : ∀ (v : ℕ) (d : List ℕ),
    runSaves n { snapshots := [v], disk := d } =
      { snapshots := [v + n], disk := d ++ (List.range n).map (v + ·) } := by
  induction n with
  | zero => intro v d; simp [runSaves]
  | succ n ih =>
      intro v d
      rw [runSaves, snapshotSave]
      simp only [if_pos trivial, List.map_cons, List.map_nil]
      rw [ih (v + 1) (d ++ [v])]
      have hrange : (List.range (n + 1)).map (v + ·) =
          v :: (List.range n).map (v + 1 + ·) := by
        rw [List.range_succ_eq_map]
        simp [List.map_map, Function.comp]
        intro a _
        omega
      rw [hrange]
      have hn : v + 1 + n = v + (n + 1) := by omega
      rw [hn]
      simp

/-- Claim C2: starting from the initial `policy-0` snapshot key, `n`
successful snapshot saves write to disk exactly the version suffixes
`0, 1, …, n-1` in order — a strictly increasing sequence with no version
shared and each write incrementing the version by exactly one — and leave
the in-memory key at version `n`. -/
theorem c2_snapshot_versions (n : ℕ) :
    (runSaves n snapInit).disk = List.range n
    ∧ ((runSaves n snapInit).disk).Pairwise (· < ·)
    ∧ (runSaves n snapInit).snapshots = [n] := by
  have h := runSaves_single n 0 []
  rw [snapInit]
  refine ⟨?_, ?_, ?_⟩
  · rw [h]; simp
  · rw [h]; simpa using List.pairwise_lt_range n
  · rw [h]; simp

/-! ### C3 — target-network sync periodicity -/

/-- Counterexample to claim C3: at step count 101 (divisible by the policy
period 101, not by the critic period 107) the online observation parameters
are *not* copied onto the target observation network — only the policy
variables are (learning_dmpo.py lines 177-191 put the observation variables
in the critic sync group, not the policy sync group).  The claim asserts the
observation parameters are copied at policy-period steps. -/
theorem c3_counterexample :
    syncExampleState.numSteps % 101 = 0
    ∧ (learnerStep 101 107 syncExampleState.online syncExampleState).tgtPolicy
        = syncExampleState.online.policy
    ∧ (learnerStep 101 107 syncExampleState.online syncExampleState).tgtObs
        ≠ syncExampleState.online.obs := by
  refine ⟨rfl, rfl, ?_⟩
  decide

/-- Claim C3 (amended): exactly when `step_count mod target_policy_update_period
== 0`, the online **policy** parameters (alone) are hard-copied onto the target
policy network; exactly when `step_count mod target_critic_update_period == 0`,
the online observation and critic parameters are hard-copied onto the target
observation and critic networks; at every other step count each target group
is unchanged, bit-identical to its previous value, and the step counter
increments by one. -/
theorem c3_target_sync (pp cp : ℕ) (upd : LearnerParams) (s : LearnerState) :
    (learnerStep pp cp upd s).tgtPolicy
        = (if s.numSteps % pp = 0 then s.online.policy else s.tgtPolicy)
    ∧ (learnerStep pp cp upd s).tgtObs
        = (if s.numSteps % cp = 0 then s.online.obs else s.tgtObs)
    ∧ (learnerStep pp cp upd s).tgtCritic
        = (if s.numSteps % cp = 0 then s.online.critic else s.tgtCritic)
    ∧ (learnerStep pp cp upd s).numSteps = s.numSteps + 1 := by
  by_cases h1 : s.numSteps % pp = 0 <;> by_cases h2 : s.numSteps % cp = 0 <;>
    simp [learnerStep, gradientApply, targetSync, h1, h2]

/-! ### C4 — gradient clipping scope -/

/-- Counterexample to claim C4: with clipping enabled, a dual-variable
gradient of norm 80 (above the 40.0 ceiling) is handed to the dual optimizer
unchanged — the code clips only the policy and critic gradient groups
(learning_dmpo.py lines 298-300) — whereas clipping it to the global-norm
ceiling would yield 40. -/
theorem c4_counterexample :
    (gradientsToApply true 0 0 80).2.2 = 80
    ∧ clipByGlobalNorm 40 80 = 40
    ∧ (80 : ℚ) ≠ 40 := by
  refine ⟨rfl, ?_, by norm_num⟩
  norm_num [clipByGlobalNorm]

/-- Claim C4 (amended): when the clipping flag is enabled, the critic and
policy gradient groups are each clipped to the 40.0 global-norm ceiling
before their optimizers apply them, but the MPO dual-variable gradients are
applied unclipped; when the flag is disabled, no gradients are clipped.  In
every case the dual gradients pass through unchanged. -/
theorem c4_clipping (clipping : Bool) (criticG policyG dualG : ℚ) :
    (gradientsToApply clipping criticG policyG dualG).2.2 = dualG
    ∧ (clipping = true →
        gradientsToApply clipping criticG policyG dualG
          = (clipByGlobalNorm 40 criticG, clipByGlobalNorm 40 policyG, dualG))
    ∧ (clipping = false →
        gradientsToApply clipping criticG policyG dualG
          = (criticG, policyG, dualG)) := by
  cases clipping <;> simp [gradientsToApply]

/-- Witness for C4 at a concrete input. -/
theorem c4_clipping_witness :
    gradientsToApply true 1 2 80
      = (clipByGlobalNorm 40 1, clipByGlobalNorm 40 2, 80) :=
  (c4_clipping true 1 2 80).2.1 rfl

/-! ### C6 — gradient application never touches target networks -/

/-- Claim C6: the gradient-application phase writes only the online trainable
groups (observation+critic, policy, duals) — it leaves every target network
and the step counter unchanged — and consequently, at any step count that
neither sync period divides, the whole learner step leaves every target
parameter unchanged. -/
theorem c6_targets_frame (pp cp : ℕ) (upd : LearnerParams) (s : LearnerState)
    (h1 : s.numSteps % pp ≠ 0) (h2 : s.numSteps % cp ≠ 0) :
    ((learnerStep pp cp upd s).tgtPolicy = s.tgtPolicy
      ∧ (learnerStep pp cp upd s).tgtObs = s.tgtObs
      ∧ (learnerStep pp cp upd s).tgtCritic = s.tgtCritic)
    ∧ ∀ (u : LearnerParams) (t : LearnerState),
        (gradientApply u t).tgtPolicy = t.tgtPolicy
        ∧ (gradientApply u t).tgtObs = t.tgtObs
        ∧ (gradientApply u t).tgtCritic = t.tgtCritic
        ∧ (gradientApply u t).numSteps = t.numSteps := by
  constructor
  · simp [learnerStep, gradientApply, targetSync, h1, h2]
  · intro u t; exact ⟨rfl, rfl, rfl, rfl⟩

/-- Witness for C6: at step count 1 with periods 101 and 107, no target
parameter changes across the whole learner step. -/
theorem c6_targets_frame_witness :
    (learnerStep 101 107 midExampleState.online midExampleState).tgtPolicy
        = midExampleState.tgtPolicy
    ∧ (learnerStep 101 107 midExampleState.online midExampleState).tgtObs
        = midExampleState.tgtObs
    ∧ (learnerStep 101 107 midExampleState.online midExampleState).tgtCritic
        = midExampleState.tgtCritic :=
  (c6_targets_frame 101 107 midExampleState.online midExampleState
    (by decide) (by decide)).1

/-! ### C7 — exceptions zeroed at episode granularity -/

/-- Claim C7: if the underlying rollout raises, `run_episode` returns the
zeroed result `{episode_length: 0, episode_return: 0, steps_per_second: 0}`
(with no aggregate keys) instead of propagating the exception, leaving the
loop state as it was — for actors and evaluators alike. -/
theorem c7_exception_zeroed (evalAverageOver : ℕ) (isEvaluator : Bool)
    (e : Unit) (entries : List String) (loadOk : String → Bool) (s : EvalState) :
    runEpisode evalAverageOver isEvaluator (.error e) entries loadOk s
      = ((zeroEp, none), s) := rfl

/-! ### C10 — failed episodes never enter the aggregates -/

/-- Claim C10: when the rollout raises, the evaluator state is untouched by
`run_episode` — the zeroed fallback is returned but not appended to the
rolling statistics window, and neither the snapshot poll state nor the
highest-version counter is updated. -/
theorem c10_failed_episode_state (evalAverageOver : ℕ) (e : Unit)
    (entries : List String) (loadOk : String → Bool) (s : EvalState) :
    (runEpisode evalAverageOver true (.error e) entries loadOk s).2.stats = s.stats
    ∧ (runEpisode evalAverageOver true (.error e) entries loadOk s).2.snap.highest
        = s.snap.highest
    ∧ (runEpisode evalAverageOver true (.error e) entries loadOk s).2.snap.latest
        = s.snap.latest
    ∧ (runEpisode evalAverageOver true (.error e) entries loadOk s).1.2 = none :=
  ⟨rfl, rfl, rfl, rfl⟩

/-! ### C9 — replay rate-limiter construction -/

/-- Claim C9: the replay table's rate limiter is a size-only `MinSize`
limiter with threshold `min_replay_size` when `samples_per_insert` is `None`,
and otherwise a `SampleToInsertRatio` limiter with
`min_size_to_sample = min_replay_size`, target ratio `samples_per_insert`,
and error buffer `min_replay_size * (0.1 * samples_per_insert)`. -/
theorem c9_rate_limiter (cfg : ReplayConfig) :
    (makeReplayTable cfg).rateLimiter = makeLimiter cfg
    ∧ (cfg.samplesPerInsert = none →
        makeLimiter cfg = .minSize cfg.minReplaySize)
    ∧ (∀ spi : ℚ, cfg.samplesPerInsert = some spi →
        makeLimiter cfg = .sampleToInsertRatio cfg.minReplaySize spi
          ((cfg.minReplaySize : ℚ) * (1/10 * spi))) := by
  refine ⟨rfl, ?_, ?_⟩
  · intro h; simp [makeLimiter, h]
  · intro spi h; simp [makeLimiter, h]

/-- Witness for C9 at the repository default configuration. -/
theorem c9_rate_limiter_witness :
    (makeReplayTable exampleReplayCfg).rateLimiter
      = RateLimiter.sampleToInsertRatio exampleReplayCfg.minReplaySize 32
          ((exampleReplayCfg.minReplaySize : ℚ) * (1/10 * 32)) :=
  (c9_rate_limiter exampleReplayCfg).1.trans
    ((c9_rate_limiter exampleReplayCfg).2.2 32 rfl)

/-! ### C1 — evaluator aggregate statistics are never reported

`run_episode` pops the oldest window entry as soon as
`len(self._stats) >= eval_average_over` *and then* `_eval_agg_stat` tests the
same `len(self._stats) >= eval_average_over` on the already-popped window, so
the window length never reaches `eval_average_over` at test time and the
aggregate dict stays empty on every episode. -/

/-- Claim C1 is violated by the code: for any `eval_average_over ≥ 1` and any
episode sequence, starting from a window shorter than `eval_average_over`
(in particular the initial empty window), every report produced by
`run_episode` carries no aggregate statistics at all. -/
theorem c1_no_aggregates (evalAverageOver : ℕ) (h1 : 1 ≤ evalAverageOver)
    (eps : List (Except Unit EpData)) :
    ∀ s : EvalState, s.stats.length < evalAverageOver →
      ((runEpisodes evalAverageOver eps s).1).all Option.isNone = true := by
  induction eps with
  | nil => intro s _; rfl
  | cons e rest ih =>
      intro s hs
      cases e with
      | error u =>
          simp only [runEpisodes, runEpisode, List.all_cons, Option.isNone_none,
            Bool.true_and]
          exact ih s hs
      | ok d =>
          have hlen : (if evalAverageOver ≤ (s.stats ++ [d]).length
              then (s.stats ++ [d]).drop 1 else s.stats ++ [d]).length
              < evalAverageOver := by
            by_cases hc : evalAverageOver ≤ (s.stats ++ [d]).length
            · rw [if_pos hc]
              simp only [List.length_drop, List.length_append, List.length_cons,
                List.length_nil]
              omega
            · rw [if_neg hc]
              simp only [List.length_append, List.length_cons, List.length_nil]
                at hc ⊢
              omega
          have hagg : evalAggStat evalAverageOver
              (if evalAverageOver ≤ (s.stats ++ [d]).length
                then (s.stats ++ [d]).drop 1 else s.stats ++ [d]) = none := by
            rw [evalAggStat, if_neg (not_le.mpr hlen)]
          simp only [runEpisodes, runEpisode, if_pos, hagg, List.all_cons,
            Option.isNone_none, Bool.true_and]
          exact ih _ (by simpa using hlen)

/-- Witness for C1 at the failing input: `eval_average_over = 2` and three
completed episodes — the claim demands aggregates from the second report on,
the code reports none. -/
theorem c1_no_aggregates_witness :
    (1 ≤ 2 ∧ evalInit.stats.length < 2)
    ∧ ((runEpisodes 2 threeEpisodes evalInit).1).all Option.isNone = true :=
  ⟨⟨by decide, by decide⟩,
    c1_no_aggregates 2 (by decide) threeEpisodes evalInit (by decide)⟩

/-! ### C8 — transient snapshot-load failure is retried -/

/-- Helper: one poll iteration never decreases the running highest version. -/
theorem pollStep_fst_le (acc : ℤ × Option String × Bool) (name : String) :
    acc.1 ≤ (pollStep acc name).1 := by
  cases h : matchPolicy name <;> simp [pollStep, h]
  split_ifs with hm <;> simp <;> omega

/-- Helper: the directory scan never decreases the running highest version. -/
theorem pollFold_fst_le (entries : List String) :
    ∀ acc : ℤ × Option String × Bool, acc.1 ≤ (entries.foldl pollStep acc).1 := by
  induction entries with
  | nil => intro acc; simp
  | cons a rest ih =>
      intro acc
      rw [List.foldl_cons]
      exact le_trans (pollStep_fst_le acc a) (ih (pollStep acc a))

/-- Helper: if a scan that starts un-armed ends with the render flag set,
the final highest version strictly exceeds the starting one. -/
theorem pollFold_true_lt (n : ℤ) (p : String) :
    ∀ (entries : List String) (b : ℤ) (l : Option String),
      List.foldl pollStep (b, l, false) entries = (n, some p, true) → b < n := by
  intro entries
  induction entries with
  | nil => intro b l h; simp at h
  | cons a rest ih =>
      intro b l h
      rw [List.foldl_cons] at h
      cases hma : matchPolicy a with
      | none =>
          simp only [pollStep, hma] at h
          exact ih b l h
      | some m =>
          by_cases hm : (m : ℤ) > b
          · simp only [pollStep, hma, if_pos hm] at h
            have hle := pollFold_fst_le rest (m, some a, true)
            rw [h] at hle
            exact lt_of_lt_of_le hm hle
          · simp only [pollStep, hma, if_neg hm] at h
            exact ih b l h

/-- Helper: the outcome of a scan that finds a new highest snapshot does not
depend on the starting highest/latest/flag, as long as the starting highest
is below the found one. -/
theorem pollFold_base_irrel (n : ℤ) (p : String) :
    ∀ (entries : List String) (b b' : ℤ) (l l' : Option String) (f f' : Bool),
      b < n → b' < n →
      List.foldl pollStep (b, l, f) entries = (n, some p, true) →
      List.foldl pollStep (b', l', f') entries = (n, some p, true) := by
  intro entries
  induction entries with
  | nil =>
      intro b b' l l' f f' hb hb' h
      simp at h
      exact absurd h.1 (ne_of_lt hb)
  | cons a rest ih =>
      intro b b' l l' f f' hb hb' h
      rw [List.foldl_cons] at h ⊢
      cases hma : matchPolicy a with
      | none =>
          simp only [pollStep, hma] at h ⊢
          exact ih b b' l l' f f' hb hb' h
      | some m =>
          by_cases hm : (m : ℤ) > b
          · simp only [pollStep, hma, if_pos hm] at h
            by_cases hm2 : (m : ℤ) > b'
            · simp only [pollStep, hma, if_pos hm2]
              exact h
            · simp only [pollStep, hma, if_neg hm2]
              exact ih m b' (some a) l' true f' (by omega) hb' h
          · simp only [pollStep, hma, if_neg hm] at h
            by_cases hm2 : (m : ℤ) > b'
            · simp only [pollStep, hma, if_pos hm2]
              exact ih b m l (some a) f true hb (by omega) h
            · simp only [pollStep, hma, if_neg hm2]
              exact ih b b' l l' f f' hb hb' h

/-- Claim C8: when the directory scan claims a new highest snapshot version
`n` at path `p` but loading it raises `OSError`, `load_snapshot_and_render`
returns without rendering and records highest version `n - 1`; on the next
poll over the same directory the same snapshot version is claimed again, and
renders once loading succeeds. -/
theorem c8_transient_load_retry (entries : List String) (loadOk : String → Bool)
    (s : SnapPollState) (n : ℤ) (p : String)
    (hpoll : pollSnapshots entries s.highest s.latest = (n, some p, true))
    (hfail : loadOk p = false) :
    loadSnapshotAndRender entries loadOk s
        = ({ highest := n - 1, latest := some p }, false)
    ∧ ∀ loadOk2 : String → Bool, loadOk2 p = true →
        loadSnapshotAndRender entries loadOk2 { highest := n - 1, latest := some p }
          = ({ highest := n, latest := some p }, true) := by
  have hpollF : List.foldl pollStep (s.highest, s.latest, false) entries
      = (n, some p, true) := hpoll
  have hb : s.highest < n := pollFold_true_lt n p entries s.highest s.latest hpollF
  constructor
  · unfold loadSnapshotAndRender
    rw [hpoll]
    simp [hfail]
  · intro loadOk2 h2
    have hpoll2 : pollSnapshots entries (n - 1) (some p) = (n, some p, true) :=
      pollFold_base_irrel n p entries s.highest (n - 1) s.latest (some p)
        false false hb (by omega) hpollF
    unfold loadSnapshotAndRender
    dsimp only
    rw [hpoll2]
    simp [h2]

/-- Witness for C8: a directory holding `policy-3`, a first poll whose load
raises, and a second poll whose load succeeds. -/
theorem c8_transient_load_retry_witness :
    loadSnapshotAndRender exampleEntries (fun _ => false)
        { highest := -1, latest := none }
      = ({ highest := 2, latest := some "policy-3" }, false)
    ∧ loadSnapshotAndRender exampleEntries (fun _ => true)
        { highest := 2, latest := some "policy-3" }
      = ({ highest := 3, latest := some "policy-3" }, true) :=
  ⟨(c8_transient_load_retry exampleEntries (fun _ => false)
      { highest := -1, latest := none } 3 "policy-3" (by decide) rfl).1,
   (c8_transient_load_retry exampleEntries (fun _ => false)
      { highest := -1, latest := none } 3 "policy-3" (by decide) rfl).2
      (fun _ => true) rfl⟩

/-! ### C5 — the log-sum-exp combination averages probabilities -/

/-- Claim C5: for every `N ≥ 1`, `A ≥ 1` and all finite logit vectors, the
bootstrap-target combination rule — log-softmax over atoms of each of the `N`
sampled logit vectors, then log-sum-exp across the samples — induces the
categorical distribution equal to the uniform average of the `N` per-sample
softmax distributions:
`softmax (averagedLogits logits) = (1/N) · ∑ k softmax (logits k)` per atom. -/
theorem c5_logsumexp_averages_probs {N A : ℕ} (hN : 0 < N) (hA : 0 < A)
    (logits : Fin N → Fin A → ℝ) (a : Fin A) :
    softmax (averagedLogits logits) a
      = (1 / (N : ℝ)) * ∑ k, softmax (logits k) a := by
  have hAne : (Finset.univ : Finset (Fin A)).Nonempty := ⟨⟨0, hA⟩, Finset.mem_univ _⟩
  have hNne : (Finset.univ : Finset (Fin N)).Nonempty := ⟨⟨0, hN⟩, Finset.mem_univ _⟩
  have hS : ∀ k : Fin N, 0 < ∑ b, Real.exp (logits k b) :=
    fun k => Finset.sum_pos (fun b _ => Real.exp_pos _) hAne
  have hexp : ∀ (k : Fin N) (b : Fin A),
      Real.exp (logSoftmax (logits k) b) = softmax (logits k) b := by
    intro k b
    rw [logSoftmax, Real.exp_sub, Real.exp_log (hS k), softmax]
  have hcomb : ∀ b : Fin A,
      Real.exp (averagedLogits logits b) = ∑ k, softmax (logits k) b := by
    intro b
    rw [averagedLogits, logSumExpSamples, Real.exp_log
      (Finset.sum_pos (fun k _ => Real.exp_pos _) hNne)]
    exact Finset.sum_congr rfl fun k _ => hexp k b
  have hswsum : ∀ k : Fin N, (∑ b, softmax (logits k) b) = 1 := by
    intro k
    simp only [softmax]
    rw [← Finset.sum_div]
    exact div_self (ne_of_gt (hS k))
  rw [softmax, hcomb a]
  have hsum : (∑ b, Real.exp (averagedLogits logits b))
      = ∑ b, ∑ k, softmax (logits k) b :=
    Finset.sum_congr rfl fun b _ => hcomb b
  rw [hsum, Finset.sum_comm]
  rw [Finset.sum_congr rfl fun k _ => hswsum k]
  simp only [Finset.sum_const, Finset.card_univ, Fintype.card_fin, nsmul_eq_mul,
    mul_one]
  ring

/-- Witness for C5 at `N = 1`, `A = 1`, zero logits. -/
theorem c5_logsumexp_averages_probs_witness :
    softmax (averagedLogits (fun (_ : Fin 1) (_ : Fin 1) => (0 : ℝ))) 0
      = (1 / ((1 : ℕ) : ℝ)) * ∑ _k : Fin 1, softmax (fun (_ : Fin 1) => (0 : ℝ)) 0 :=
  c5_logsumexp_averages_probs Nat.one_pos Nat.one_pos (fun _ _ => 0) 0

end VnlRay
